import Mathlib

/-!
Shallow embedding of the sample/manifest/tiling-orchestration core of the
`light_pipe_geo.processing.sample` module: `SampleManifest`, `LightPipeTile`
and `LightPipeSample`, together with proofs of the specified properties.

Modelling conventions:
* GDAL dataset handles are abstract (`DS.handle`), path strings are `DS.path`,
  and `gdal.Open` on a path string is modelled as the injection `DS.opened`.
* Python `None` is `Option.none`; arguments that accept a scalar, a sequence or
  `None` are modelled by the `Arg` type.
* numpy prediction/pixel arrays are lists of rationals; `np.allclose(a, 0)`
  with numpy's default tolerances reduces to `|a_i| <= atol` with
  `atol = 1e-8`.
* Python exceptions are the `PyErr` error monad (`Except PyErr`).
* The process-wide `MANIFEST_SAMPLE_NUM` counter is threaded explicitly as a
  `Nat` state through every operation that may construct a manifest.
-/

namespace Yankee

/-- A raster source: an opened GDAL dataset (abstract id), a path string, or
the dataset obtained by opening a path string (`gdal.Open`). -/
inductive DS
  | handle (id : Nat)
  | path (p : String)
  | opened (p : String)
deriving DecidableEq, Repr

/-- `gdal.Open` on a path string, modelled as an abstract successful open. -/
def gdalOpen (p : String) : DS := .opened p

/-- Per-dataset metadata mapping (a Python `dict`). -/
abbrev Meta := List (String × String)

/-- The `array_dtype` configuration value (e.g. `np.uint16`). -/
abbrev DType := String

/-- A tile coordinate as produced/consumed by the tiling collaborator. -/
abbrev Coord := Nat × Nat

/-- Python exceptions surfaced by the embedded code. -/
inductive PyErr
  | typeError
  | attributeError
  | indexError
  | assertionError
  | stopIteration
  | notImplementedError
deriving DecidableEq, Repr

/-- An argument that may be `None`, a scalar, or a sequence (the
`Optional[Union[T, Sequence[T]]]` pattern of the Python signatures). -/
inductive Arg (α : Type)
  | none
  | scalar (a : α)
  | seq (l : List α)
deriving DecidableEq, Repr

/-- Zero-pads a numeral to width 5: Python `f"sample_{N:05d}"`. -/
def pad5 (n : Nat) : String :=
  let s := toString n
  String.mk (List.replicate (5 - s.length) '0') ++ s

/-- The `SampleManifest` record. `datasets` is `Option` because the Python
constructor stores `None` unchanged when `datasets` is omitted but every other
field is supplied explicitly. -/
structure SampleManifest where
  uid : String
  datasets : Option (List DS)
  labels : List Bool
  metadata : List Meta
  num_datasets : Nat
deriving DecidableEq, Repr

/-- `SampleManifest.__new__`: resolves the uid from the process-wide counter
when omitted, wraps scalar `datasets`/`labels`/`metadata` into one-element
sequences, defaults `labels` to all-`False` and `metadata` to empty dicts of
the length of `datasets` (raising `TypeError` via `len(None)` when `datasets`
is also `None`), and defaults `num_datasets` to `len(datasets)`.  Returns the
manifest together with the updated counter. -/
def SampleManifest.new (counter : Nat) (uid : Option String)
    (datasets : Arg DS) (labels : Arg Bool) (metadata : Arg Meta)
    (num_datasets : Option Nat) : Except PyErr (SampleManifest × Nat) := do
  let (uid, counter) :=
    match uid with
    | some u => (u, counter)
    | none => ("sample_" ++ pad5 counter, counter + 1)
  let datasetsN : Option (List DS) :=
    match datasets with
    | .scalar d => some [d]
    | .seq l => some l
    | .none => none
  let labelsN : List Bool ←
    match labels with
    | .scalar b => pure [b]
    | .seq l => pure l
    | .none =>
      match datasetsN with
      | some ds => pure (List.replicate ds.length false)
      | none => throw .typeError
  let metadataN : List Meta ←
    match metadata with
    | .scalar m => pure [m]
    | .seq l => pure l
    | .none =>
      match datasetsN with
      | some ds => pure (List.replicate ds.length [])
      | none => throw .typeError
  let numN : Nat ←
    match num_datasets with
    | some n => pure n
    | none =>
      match datasetsN with
      | some ds => pure ds.length
      | none => throw .typeError
  pure (⟨uid, datasetsN, labelsN, metadataN, numN⟩, counter)

/-- The manifest length invariant
`len(datasets) == len(labels) == len(metadata) == num_datasets`,
as a decidable check. -/
def SampleManifest.wfb (m : SampleManifest) : Bool :=
  match m.datasets with
  | none => false
  | some l =>
    l.length == m.num_datasets && m.labels.length == m.num_datasets &&
      m.metadata.length == m.num_datasets

/-- The `manifests` argument of `SampleManifest.concatenate`: a raw dataset or
path string, a single manifest, or a sequence of manifests. -/
inductive ConcatArg
  | raw (d : DS)
  | one (m : SampleManifest)
  | many (ms : List SampleManifest)

/-- One step of the concatenation loop body: `datasets += manifest.datasets`
etc.; `list += None` raises `TypeError`. -/
def concatStep (acc : List DS × List Bool × List Meta × Nat)
    (m : SampleManifest) : Except PyErr (List DS × List Bool × List Meta × Nat) := do
  let nd ←
    match m.datasets with
    | some l => pure l
    | none => throw .typeError
  pure (acc.1 ++ nd, acc.2.1 ++ m.labels, acc.2.2.1 ++ m.metadata,
    acc.2.2.2 + m.num_datasets)

/-- `SampleManifest.concatenate`: normalizes a raw source into a fresh
one-element manifest (using and advancing the counter), wraps a single
manifest into a list, copies the receiver's sequences, extends them with each
operand's sequences in order, sums `num_datasets`, and builds the result via
the constructor (auto-generating a uid when `uid` is omitted).
`self.datasets.copy()` raises `AttributeError` when `self.datasets` is
`None`. -/
def SampleManifest.concatenate (self : SampleManifest) (counter : Nat)
    (manifests : ConcatArg) (uid : Option String) :
    Except PyErr (SampleManifest × Nat) := do
  let (ms, counter) ←
    match manifests with
    | .raw d => do
      let (m, c) ← SampleManifest.new counter none (.scalar d) .none .none .none
      pure ([m], c)
    | .one m => pure ([m], counter)
    | .many ms => pure (ms, counter)
  let ds0 ←
    match self.datasets with
    | some l => pure l
    | none => throw .attributeError
  let acc ← ms.foldlM concatStep (ds0, self.labels, self.metadata, self.num_datasets)
  SampleManifest.new counter uid (.seq acc.1) (.seq acc.2.1) (.seq acc.2.2.1)
    (some acc.2.2.2)

/-- The `band_map` returned by the tiling collaborator: band indices of the
feature bands (`band_map[False]`) and of the label bands (`band_map[True]`). -/
structure BandMap where
  feat : List Nat
  lab : List Nat
deriving DecidableEq, Repr

/-- A raw tile array from the tiling collaborator: a list of bands, each a
flat list of pixel values. -/
abbrev TileArr := List (List Rat)

/-- The `LightPipeTile` record `(X, y, band_map)`. -/
structure LightPipeTile where
  X : TileArr
  y : TileArr
  band_map : BandMap
deriving DecidableEq, Repr

/-- numpy's default absolute tolerance `atol = 1e-8` in `np.allclose`. -/
def atol : Rat := mkRat 1 100000000

/-- A kernel-computable comparison on `ℚ` by cross-multiplying numerators and
denominators; agrees with `≤` (see `ratLeB_iff`). -/
def ratLeB (a b : Rat) : Bool :=
  decide (a.num * (b.den : Int) ≤ b.num * (a.den : Int))

/-- `np.allclose(a, 0)` on a (possibly empty) band selection: every pixel of
every band is within `atol` of zero (`|x| <= atol`, see `allCloseZero_iff`).
Empty selections are all-close. -/
def allCloseZero (a : TileArr) : Bool :=
  a.all fun band => band.all fun x => ratLeB (-atol) x && ratLeB x atol

/-- numpy fancy indexing `tile_array[idx]` selecting bands. -/
def selectBands (ta : TileArr) (idx : List Nat) : TileArr :=
  idx.map fun i => ta.getD i []

/-- The `LightPipeSample` mutable state.  `preds` defaults to an (empty) list,
not `None`; `band_map` does not exist before the first tiling pass, modelled
as `none`.  `_i` is the sequential-iteration cursor. -/
structure Sample where
  data : SampleManifest
  preds : Option (List Rat)
  pos_only : Option Bool
  non_null_only : Option Bool
  tile_y : Option Nat
  tile_x : Option Nat
  array_dtype : Option DType
  row_major : Option Bool
  tile_coords : Option (List Coord)
  shuffle_indices : Option (List Nat)
  band_map : Option BandMap
  icursor : Nat
deriving Repr

/-- The `data` argument of `LightPipeSample.__init__` / `add_data`: a
manifest, or raw source(s) to be wrapped via `SampleManifest(datasets=data)`. -/
inductive DataArg
  | manifest (m : SampleManifest)
  | raw (a : Arg DS)

/-- `LightPipeSample.__init__`: wraps non-manifest `data` through the manifest
constructor and stores every configuration argument; `_i` starts at 0.  The
Python defaults are `preds=[]`, `pos_only=False`, `non_null_only=False`,
`tile_y=224`, `tile_x=224`, `array_dtype=np.uint16`, `row_major=False`,
`tile_coords=None`, `shuffle_indices=None`. -/
def Sample.init (counter : Nat) (data : DataArg) (preds : Option (List Rat))
    (pos_only non_null_only : Option Bool) (tile_y tile_x : Option Nat)
    (array_dtype : Option DType) (row_major : Option Bool)
    (tile_coords : Option (List Coord)) (shuffle_indices : Option (List Nat)) :
    Except PyErr (Sample × Nat) := do
  let (m, counter) ←
    match data with
    | .manifest m => pure (m, counter)
    | .raw a => SampleManifest.new counter none a .none .none .none
  pure (⟨m, preds, pos_only, non_null_only, tile_y, tile_x, array_dtype,
    row_major, tile_coords, shuffle_indices, none, 0⟩, counter)

/-- The Python default arguments of `LightPipeSample.__init__`. -/
def Sample.initDefaults (counter : Nat) (data : DataArg) :
    Except PyErr (Sample × Nat) :=
  Sample.init counter data (some []) (some false) (some false) (some 224)
    (some 224) (some "uint16") (some false) none none

/-- `LightPipeSample.add_data`: concatenates `data` (normalized to a manifest)
onto the current manifest and replaces the Sample's manifest reference. -/
def Sample.add_data (s : Sample) (counter : Nat) (data : DataArg) :
    Except PyErr (Sample × Nat) := do
  let (m, counter) ←
    match data with
    | .manifest m => pure (m, counter)
    | .raw a => SampleManifest.new counter none a .none .none .none
  let (m2, counter) ← s.data.concatenate counter (.one m) none
  pure ({s with data := m2}, counter)

/-- `LightPipeSample.next`: returns the entry at the cursor (opening a path
string via `gdal.Open`), advancing the cursor; raises `StopIteration` once the
cursor reaches `num_datasets`.  Indexing beyond the actual sequence lengths
raises `IndexError` (and `self.data.datasets[i]` on a `None` datasets field
raises `TypeError`). -/
def Sample.next (s : Sample) : Except PyErr ((DS × Bool × Meta) × Sample) := do
  let i := s.icursor
  let n := s.data.num_datasets
  if i < n then
    let s := {s with icursor := i + 1}
    let ds ←
      match s.data.datasets with
      | some l => pure l
      | none => throw .typeError
    let d ←
      match ds[i]? with
      | some d => pure d
      | none => throw .indexError
    let d := match d with | .path p => gdalOpen p | x => x
    let lab ←
      match s.data.labels[i]? with
      | some b => pure b
      | none => throw .indexError
    let md ←
      match s.data.metadata[i]? with
      | some m => pure m
      | none => throw .indexError
    pure ((d, lab, md), s)
  else
    throw .stopIteration

/-- `k` successive `next` calls, collecting the returned triples in order. -/
def Sample.iterN (s : Sample) : Nat → Except PyErr (List (DS × Bool × Meta) × Sample)
  | 0 => pure ([], s)
  | k + 1 => do
    let (t, s) ← s.next
    let (ts, s) ← s.iterN k
    pure (t :: ts, s)

/-- The inverse-permutation scatter of `unshuffle`:
`unshuffle_indices = np.zeros_like(shuffle_indices);
 unshuffle_indices[shuffle_indices] = np.arange(len(shuffle_indices))`. -/
def scatterInv (p : List Nat) : List Nat :=
  (List.range p.length).foldl (fun acc k => acc.set (p.getD k 0) k)
    (List.replicate p.length 0)

/-- `LightPipeSample.unshuffle`: defaults `preds` to the stored predictions
(asserting they are not `None`), defaults `shuffle_indices` to the stored ones
when available, and if a permutation is available scatters its inverse and
gathers `preds[unshuffle_indices]`; otherwise returns `preds` unchanged.
numpy raises `IndexError` on out-of-range scatter/gather indices. -/
def Sample.unshuffle (s : Sample) (preds : Option (List Rat))
    (shuffle_indices : Option (List Nat)) : Except PyErr (List Rat) := do
  let p ←
    match preds with
    | some p => pure p
    | none =>
      match s.preds with
      | some p => pure p
      | none => throw .assertionError
  let si :=
    match shuffle_indices with
    | some idx => some idx
    | none => s.shuffle_indices
  match si with
  | none => pure p
  | some idx =>
    if idx.all (· < idx.length) then
      let inv := scatterInv idx
      if inv.all (· < p.length) then
        pure (inv.map fun i => p.getD i 0)
      else throw .indexError
    else throw .indexError

/-- The keyword arguments of `LightPipeSample.tile`. -/
structure TileArgs where
  tile_y : Option Nat
  tile_x : Option Nat
  array_dtype : Option DType
  row_major : Option Bool
  tile_coords : Option (List Coord)
  pos_only : Option Bool
  non_null_only : Option Bool
  shuffle_tiles : Bool
  assert_tile_smaller_than_raster : Bool
deriving Repr

/-- The `tile` call with every optional argument omitted
(`shuffle_tiles=False`, `assert_tile_smaller_than_raster=False`). -/
def TileArgs.default : TileArgs :=
  ⟨none, none, none, none, none, none, none, false, false⟩

/-- The tuple returned by the external tiling collaborator
`tiling.get_tiles` (its internals are opaque; the orchestration code is
verified for every possible return value). -/
structure CollabOut where
  datasets : Option (List DS)
  tiles : List TileArr
  tile_coords : Option (List Coord)
  shuffle_indices : Option (List Nat)
  band_map : BandMap
deriving Repr

/-- Python truthiness of an `Optional[bool]` (`None` is falsy). -/
def truthy : Option Bool → Bool
  | some true => true
  | _ => false

/-- The argument-resolution block at the head of `tile`'s body: for each of
the seven persisted parameters, an explicit argument overwrites the stored
default and is used; an omitted argument resolves to the stored value.
Returns the updated Sample and the resolved values. -/
def resolveTileConfig (s : Sample) (a : TileArgs) :
    Sample × (Option Nat × Option Nat × Option DType × Option Bool ×
      Option (List Coord) × Option Bool × Option Bool) :=
  let (ty, s) := match a.tile_y with
    | none => (s.tile_y, s)
    | some v => (some v, {s with tile_y := some v})
  let (tx, s) := match a.tile_x with
    | none => (s.tile_x, s)
    | some v => (some v, {s with tile_x := some v})
  let (ad, s) := match a.array_dtype with
    | none => (s.array_dtype, s)
    | some v => (some v, {s with array_dtype := some v})
  let (rm, s) := match a.row_major with
    | none => (s.row_major, s)
    | some v => (some v, {s with row_major := some v})
  let (tc, s) := match a.tile_coords with
    | none => (s.tile_coords, s)
    | some v => (some v, {s with tile_coords := some v})
  let (po, s) := match a.pos_only with
    | none => (s.pos_only, s)
    | some v => (some v, {s with pos_only := some v})
  let (nn, s) := match a.non_null_only with
    | none => (s.non_null_only, s)
    | some v => (some v, {s with non_null_only := some v})
  (s, (ty, tx, ad, rm, tc, po, nn))

/-- One iteration of the tile loop body: split the raw tile array into `X`
(feature bands) and `y` (label bands) via the band map, skip the tile when
`pos_only` holds and `y` is all-close to zero or when `non_null_only` holds
and `X` is all-close to zero, otherwise yield a `LightPipeTile`.  Out-of-range
band indices raise `IndexError` in numpy. -/
def tileLoopStep (posOnly nonNullOnly : Bool) (bm : BandMap) (ta : TileArr) :
    Except PyErr (Option LightPipeTile) :=
  if bm.feat.all (· < ta.length) && bm.lab.all (· < ta.length) then
    let X := selectBands ta bm.feat
    let y := selectBands ta bm.lab
    if posOnly && allCloseZero y then .ok none
    else if nonNullOnly && allCloseZero X then .ok none
    else .ok (some ⟨X, y, bm⟩)
  else .error .indexError

/-- Running the body of the generator returned by `tile` to exhaustion, given
the collaborator's return value `c`: resolve/persist the configuration, call
`get_tiles`, persist the returned `tile_coords`, `shuffle_indices` and
`band_map` onto the Sample, then filter and yield tiles.  The state component
is the Sample as mutated by the body (all mutation happens before the loop). -/
def tileRun (s : Sample) (a : TileArgs) (c : CollabOut) :
    Sample × Except PyErr (List LightPipeTile) :=
  let (s, r) := resolveTileConfig s a
  let posOnly := truthy r.2.2.2.2.2.1
  let nonNullOnly := truthy r.2.2.2.2.2.2
  let s := {s with tile_coords := c.tile_coords,
                   shuffle_indices := c.shuffle_indices,
                   band_map := some c.band_map}
  let tiles := c.tiles.mapM (tileLoopStep posOnly nonNullOnly c.band_map)
  (s, tiles.map (·.filterMap id))

/-- A suspended tile generator: calling `tile` merely packages the arguments;
the body (`tileRun`) executes only when the sequence is first pulled. -/
structure TileGen where
  args : TileArgs
deriving Repr

/-- Pulling the suspended generator: executes the generator body against the
Sample's state at pull time and the collaborator's return value. -/
def TileGen.run (g : TileGen) (s : Sample) (c : CollabOut) :
    Sample × Except PyErr (List LightPipeTile) :=
  tileRun s g.args c

/-- `LightPipeSample.tile`: a generator function; the call itself returns a
suspended generator and performs no state change. -/
def Sample.tile (s : Sample) (a : TileArgs) : Sample × TileGen := (s, ⟨a⟩)

/-- `LightPipeSample.shuffle`: `yield from self.tile(shuffle_tiles=True, ...)`;
also a generator function, so the call itself performs no state change. -/
def Sample.shuffle (s : Sample) (a : TileArgs) : Sample × TileGen :=
  (s, ⟨{a with shuffle_tiles := true}⟩)

/-- `raster_io.file_is_a`.  Modelled from the spec: the `raster_io` module is
not part of the shown sources; the spec defines it as boolean classification
of a path by file extension, i.e. a suffix test.  Paths are lists of
characters. -/
def fileIsA (path ext : List Char) : Bool := ext.isSuffixOf path

/-- `LightPipeSample._save_preds_as_geotiff`, up to the delegation: when the
Sample holds shuffle indices the predictions are passed through `unshuffle`
first; the resulting array is handed to the raster-writer collaborator
`make_north_up_dataset_from_tiles_like`.  The model returns that array. -/
def Sample.savePredsAsGeotiff (s : Sample) (preds : List Rat) :
    Except PyErr (List Rat) :=
  match s.shuffle_indices with
  | some _ => s.unshuffle (some preds) none
  | none => pure preds

/-- `LightPipeSample.save`: defaults `preds` to the stored predictions
(asserting they are not `None`), then dispatches on the extension of
`savepath`: `.tif` takes the geotiff path, `.csv` reaches
`_save_preds_as_csv` which raises `NotImplementedError`, and anything else
raises `NotImplementedError`.  The model returns the prediction array handed
to the raster writer. -/
def Sample.save (s : Sample) (savepath : List Char) (preds : Option (List Rat)) :
    Except PyErr (List Rat) := do
  let p ←
    match preds with
    | some p => pure p
    | none =>
      match s.preds with
      | some p => pure p
      | none => throw .assertionError
  if fileIsA savepath ".tif".toList then
    s.savePredsAsGeotiff p
  else if fileIsA savepath ".csv".toList then
    throw .notImplementedError
  else
    throw .notImplementedError

/-! ## Helper lemmas about the manifest constructor and concatenation -/

theorem ratLeB_iff (a b : Rat) : ratLeB a b = true ↔ a ≤ b := by
  rw [ratLeB, decide_eq_true_eq, Rat.le_def]

theorem allCloseZero_iff (a : TileArr) :
    allCloseZero a = true ↔ ∀ band ∈ a, ∀ x ∈ band, |x| ≤ atol := by
  rw [allCloseZero, List.all_eq_true]
  refine forall_congr' fun band => forall_congr' fun _ => ?_
  rw [List.all_eq_true]
  refine forall_congr' fun x => forall_congr' fun _ => ?_
  rw [Bool.and_eq_true, ratLeB_iff, ratLeB_iff, abs_le]

/-- The uid stored by the constructor: the argument when supplied, otherwise
the auto-generated `sample_{counter:05d}`. -/
def uidResolve : Option String → Nat → String
  | some u, _ => u
  | none, c => "sample_" ++ pad5 c

/-- The counter after the constructor: advanced exactly when the uid was
auto-generated. -/
def uidCounter : Option String → Nat → Nat
  | some _, c => c
  | none, c => c + 1

/-- A manifest's datasets list (defined when `datasets` is not `None`). -/
def dsOf (m : SampleManifest) : List DS := m.datasets.getD []

theorem new_seq_eq (counter : Nat) (uid : Option String) (d : List DS)
    (l : List Bool) (md : List Meta) (n : Nat) :
    SampleManifest.new counter uid (.seq d) (.seq l) (.seq md) (some n) =
      .ok (⟨uidResolve uid counter, some d, l, md, n⟩, uidCounter uid counter) := by
  cases uid <;> rfl

theorem new_defaults_seq_eq (counter : Nat) (uid : Option String) (d : List DS) :
    SampleManifest.new counter uid (.seq d) .none .none .none =
      .ok (⟨uidResolve uid counter, some d, List.replicate d.length false,
        List.replicate d.length [], d.length⟩, uidCounter uid counter) := by
  cases uid <;> rfl

theorem new_defaults_scalar_eq (counter : Nat) (uid : Option String) (d : DS) :
    SampleManifest.new counter uid (.scalar d) .none .none .none =
      .ok (⟨uidResolve uid counter, some [d], [false], [[]], 1⟩,
        uidCounter uid counter) := by
  cases uid <;> rfl

theorem concat_fold (B : List SampleManifest) :
    ∀ (d : List DS) (l : List Bool) (md : List Meta) (n : Nat),
    (∀ b ∈ B, b.datasets ≠ none) →
    B.foldlM concatStep (d, l, md, n) =
      Except.ok (d ++ B.flatMap dsOf, l ++ B.flatMap (fun b => b.labels),
        md ++ B.flatMap (fun b => b.metadata),
        n + (B.map (fun b => b.num_datasets)).sum) := by
  induction B with
  | nil => intro d l md n _; simp [List.foldlM, pure, Except.pure]
  | cons b bs ih =>
    intro d l md n hB
    have hb : b.datasets ≠ none := hB b (by simp)
    cases hdb : b.datasets with
    | none => exact absurd hdb hb
    | some lb =>
      rw [List.foldlM_cons]
      have hstep : concatStep (d, l, md, n) b =
          .ok (d ++ lb, l ++ b.labels, md ++ b.metadata, n + b.num_datasets) := by
        simp [concatStep, hdb, pure, Except.pure, Bind.bind, Except.bind]
      rw [hstep]
      show bs.foldlM concatStep _ = _
      rw [ih _ _ _ _ (fun x hx => hB x (by simp [hx]))]
      simp [dsOf, hdb, List.append_assoc, Nat.add_assoc]

theorem concatenate_many_eq (A : SampleManifest) (B : List SampleManifest)
    (counter : Nat) (uid : Option String) (la : List DS)
    (hA : A.datasets = some la) (hB : ∀ b ∈ B, b.datasets ≠ none) :
    A.concatenate counter (.many B) uid =
      .ok (⟨uidResolve uid counter, some (la ++ B.flatMap dsOf),
        A.labels ++ B.flatMap (fun b => b.labels),
        A.metadata ++ B.flatMap (fun b => b.metadata),
        A.num_datasets + (B.map (fun b => b.num_datasets)).sum⟩,
        uidCounter uid counter) := by
  show (Except.ok (B, counter) >>= _ : Except PyErr (SampleManifest × Nat)) = _
  rw [show ∀ (x : List SampleManifest × Nat) f,
    (Except.ok x >>= f : Except PyErr (SampleManifest × Nat)) = f x from fun _ _ => rfl]
  simp only [hA]
  show (Except.ok la >>= _ : Except PyErr (SampleManifest × Nat)) = _
  rw [show ∀ (x : List DS) f,
    (Except.ok x >>= f : Except PyErr (SampleManifest × Nat)) = f x from fun _ _ => rfl]
  show (B.foldlM concatStep _ >>= _ : Except PyErr (SampleManifest × Nat)) = _
  rw [concat_fold B la A.labels A.metadata A.num_datasets hB]
  exact new_seq_eq ..

theorem wfb_ne_none (m : SampleManifest) (h : m.wfb = true) : m.datasets ≠ none := by
  cases hd : m.datasets <;> simp [SampleManifest.wfb, hd] at h ⊢

theorem wfb_lengths (m : SampleManifest) (h : m.wfb = true) :
    (dsOf m).length = m.num_datasets ∧ m.labels.length = m.num_datasets ∧
      m.metadata.length = m.num_datasets := by
  cases hd : m.datasets with
  | none => simp [SampleManifest.wfb, hd] at h
  | some l =>
    simp only [SampleManifest.wfb, hd, Bool.and_eq_true, beq_iff_eq] at h
    exact ⟨by simp [dsOf, hd, h.1.1], h.1.2, h.2⟩

theorem concat_many_result_wf (A : SampleManifest) (B : List SampleManifest)
    (counter : Nat) (uid : Option String) (hA : A.wfb = true)
    (hB : ∀ b ∈ B, b.wfb = true) :
    ∀ r c', A.concatenate counter (.many B) uid = .ok (r, c') → r.wfb = true := by
  intro r c' hr
  obtain ⟨la, hla⟩ := Option.ne_none_iff_exists.mp (wfb_ne_none A hA)
  rw [concatenate_many_eq A B counter uid la hla.symm
    (fun b hb => wfb_ne_none b (hB b hb))] at hr
  obtain ⟨hr, -⟩ := Prod.mk.injEq .. ▸ (Except.ok.injEq .. ▸ hr)
  obtain ⟨hAd, hAl, hAm⟩ := wfb_lengths A hA
  have hsum : (B.map fun b => (dsOf b).length) = B.map fun b => b.num_datasets :=
    List.map_congr_left fun b hb => (wfb_lengths b (hB b hb)).1
  have hsuml : (B.map fun b => b.labels.length) = B.map fun b => b.num_datasets :=
    List.map_congr_left fun b hb => (wfb_lengths b (hB b hb)).2.1
  have hsumm : (B.map fun b => b.metadata.length) = B.map fun b => b.num_datasets :=
    List.map_congr_left fun b hb => (wfb_lengths b (hB b hb)).2.2
  subst hr
  have hda : la.length = A.num_datasets := by
    simp [dsOf, ← hla] at hAd; exact hAd
  simp [SampleManifest.wfb, List.length_append, List.length_flatMap,
    Function.comp_def, hsum, hsuml, hsumm, hda, hAl, hAm]

theorem concat_raw_eq (A : SampleManifest) (d : DS) (counter : Nat)
    (uid : Option String) :
    A.concatenate counter (.raw d) uid =
      A.concatenate (counter + 1)
        (.many [⟨"sample_" ++ pad5 counter, some [d], [false], [[]], 1⟩]) uid := rfl

/-- Well-formedness of the operand(s) of a `concatenate` call: every manifest
supplied satisfies the length invariant (a raw source is normalized into a
fresh well-formed manifest, so it needs no assumption). -/
def ConcatArg.wf : ConcatArg → Prop
  | .raw _ => True
  | .one m => m.wfb = true
  | .many ms => ∀ b ∈ ms, b.wfb = true

/-- C1 (amended): construction performs no length validation — a construction
that omits `labels`, `metadata` and `num_datasets` derives them from
`datasets` and establishes the invariant
`len(datasets) == len(labels) == len(metadata) == num_datasets`, and a
concatenation whose operands all satisfy the invariant returns a manifest
satisfying it; but explicitly mismatched sequences are accepted without any
error (see the counterexample). -/
theorem C1_manifest_invariant (counter ccat : Nat) (uid uidc : Option String)
    (d : Arg DS) (A : SampleManifest) (ca : ConcatArg)
    (hA : A.wfb = true) (hca : ca.wf) :
    (∀ m c', SampleManifest.new counter uid d .none .none .none = .ok (m, c') →
      m.wfb = true) ∧
    (∀ r c', A.concatenate ccat ca uidc = .ok (r, c') → r.wfb = true) := by
  constructor
  · intro m c' hm
    cases d with
    | none => cases uid <;> simp [SampleManifest.new, Bind.bind, Except.bind] at hm
    | scalar x =>
      rw [new_defaults_scalar_eq] at hm
      obtain ⟨hr, -⟩ := Prod.mk.injEq .. ▸ (Except.ok.injEq .. ▸ hm)
      subst hr; rfl
    | seq l =>
      rw [new_defaults_seq_eq] at hm
      obtain ⟨hr, -⟩ := Prod.mk.injEq .. ▸ (Except.ok.injEq .. ▸ hm)
      subst hr
      simp [SampleManifest.wfb]
  · cases ca with
    | many ms => exact concat_many_result_wf A ms ccat uidc hA hca
    | one m =>
      exact concat_many_result_wf A [m] ccat uidc hA
        (by intro b hb; simp at hb; subst hb; exact hca)
    | raw x =>
      rw [concat_raw_eq]
      exact concat_many_result_wf A _ (ccat + 1) uidc hA
        (by intro b hb; simp at hb; subst hb; rfl)

/-- Witness for C1: a concrete default construction is well-formed. -/
theorem C1_manifest_invariant_witness :
    SampleManifest.wfb ⟨"sample_00000", some [DS.path "a"], [false], [[]], 1⟩ = true :=
  (C1_manifest_invariant 0 0 none none (.seq [DS.path "a"])
      ⟨"a", some [], [], [], 0⟩ (.many []) (by decide)
      (by intro b hb; simp at hb)).1
    ⟨"sample_00000", some [DS.path "a"], [false], [[]], 1⟩ 1
    (by rw [new_defaults_seq_eq]; rfl)

/-- Counterexample for C1 as stated: a construction whose labels sequence has
length 1 against two datasets returns successfully — no configuration error is
raised — and the resulting manifest violates the length invariant. -/
theorem C1_counterexample :
    SampleManifest.new 0 none (.seq [DS.path "a", DS.path "b"]) (.seq [true])
        .none none =
      .ok (⟨"sample_00000", some [DS.path "a", DS.path "b"], [true], [[], []], 2⟩, 1) ∧
    SampleManifest.wfb
        ⟨"sample_00000", some [DS.path "a", DS.path "b"], [true], [[], []], 2⟩ = false :=
  ⟨rfl, rfl⟩

/-- C5: `A.concatenate(B)` returns a new manifest whose `datasets`, `labels`
and `metadata` are A's sequences followed by each b's sequences in the order B
is supplied, and whose `num_datasets` is `A.num_datasets` plus the sum of the
operands' `num_datasets`.  (The embedding is purely functional, so A and the
elements of B are unmodified by construction.) -/
theorem C5_concatenate_append (A : SampleManifest) (B : List SampleManifest)
    (counter : Nat) (uid : Option String) (la : List DS)
    (hA : A.datasets = some la) (hB : ∀ b ∈ B, b.datasets ≠ none) :
    A.concatenate counter (.many B) uid =
      .ok (⟨uidResolve uid counter, some (la ++ B.flatMap dsOf),
        A.labels ++ B.flatMap (fun b => b.labels),
        A.metadata ++ B.flatMap (fun b => b.metadata),
        A.num_datasets + (B.map (fun b => b.num_datasets)).sum⟩,
        uidCounter uid counter) :=
  concatenate_many_eq A B counter uid la hA hB

/-- Witness for C5 at concrete manifests. -/
theorem C5_concatenate_append_witness :
    SampleManifest.concatenate ⟨"a", some [DS.handle 1], [false], [[]], 1⟩ 5
        (.many [⟨"b", some [DS.handle 2, DS.handle 3], [true, false], [[], []], 2⟩])
        none =
      .ok (⟨"sample_00005", some [DS.handle 1, DS.handle 2, DS.handle 3],
        [false, true, false], [[], [], []], 3⟩, 6) :=
  C5_concatenate_append ⟨"a", some [DS.handle 1], [false], [[]], 1⟩
    [⟨"b", some [DS.handle 2, DS.handle 3], [true, false], [[], []], 2⟩]
    5 none [DS.handle 1] rfl (by decide)

/-! ## Predictions precondition (`unshuffle`/`save`) and unshuffle identity -/

/-- C2 (amended): with the `preds` argument omitted, `unshuffle` and `save`
fail with an assertion error precisely when the stored `preds` is `None`; the
constructor's default stored `preds` is an empty list, which passes the
`is not None` check, so a default-constructed Sample silently produces empty
output (see the counterexample). -/
theorem C2_preds_assertion (s : Sample) (path : List Char)
    (si : Option (List Nat)) (h : s.preds = none) :
    s.unshuffle none si = .error .assertionError ∧
      s.save path none = .error .assertionError := by
  constructor
  · simp [Sample.unshuffle, h, Bind.bind, Except.bind]
  · simp [Sample.save, h, Bind.bind, Except.bind]

/-- Witness for C2 at a Sample whose stored predictions are `None`. -/
theorem C2_preds_assertion_witness :
    Sample.unshuffle ⟨⟨"u", some [DS.handle 1], [false], [[]], 1⟩, none,
        some false, some false, some 224, some 224, some "uint16", some false,
        none, none, none, 0⟩ none none = .error .assertionError ∧
      Sample.save ⟨⟨"u", some [DS.handle 1], [false], [[]], 1⟩, none,
        some false, some false, some 224, some 224, some "uint16", some false,
        none, none, none, 0⟩ ".csv".toList none = .error .assertionError :=
  C2_preds_assertion _ _ none rfl

/-- Counterexample for C2 as stated: the constructor's default stored `preds`
is the empty list, so a default-constructed Sample holds no predictions, yet
`unshuffle()` and `save()` with `preds` omitted do not fail — they silently
produce empty output. -/
theorem C2_counterexample :
    Sample.initDefaults 0 (.manifest ⟨"u", some [DS.handle 1], [false], [[]], 1⟩) =
      .ok (⟨⟨"u", some [DS.handle 1], [false], [[]], 1⟩, some [], some false,
        some false, some 224, some 224, some "uint16", some false, none, none,
        none, 0⟩, 0) ∧
    Sample.unshuffle ⟨⟨"u", some [DS.handle 1], [false], [[]], 1⟩, some [],
        some false, some false, some 224, some 224, some "uint16", some false,
        none, none, none, 0⟩ none none = .ok [] ∧
    Sample.save ⟨⟨"u", some [DS.handle 1], [false], [[]], 1⟩, some [],
        some false, some false, some 224, some 224, some "uint16", some false,
        none, none, none, 0⟩ "out.tif".toList none = .ok [] :=
  ⟨rfl, rfl, rfl⟩

/-- C9: `unshuffle` with no `shuffle_indices` argument and no stored shuffle
indices returns its input predictions unchanged. -/
theorem C9_unshuffle_identity (s : Sample) (v : List Rat)
    (h : s.shuffle_indices = none) : s.unshuffle (some v) none = .ok v := by
  simp [Sample.unshuffle, h, Bind.bind, Except.bind, pure, Except.pure]

/-- Witness for C9 at a concrete Sample and prediction list. -/
theorem C9_unshuffle_identity_witness :
    Sample.unshuffle ⟨⟨"u", some [DS.handle 1], [false], [[]], 1⟩, some [],
        some false, some false, some 224, some 224, some "uint16", some false,
        none, none, none, 0⟩ (some [3, 1, 4]) none = .ok [3, 1, 4] :=
  C9_unshuffle_identity _ [3, 1, 4] rfl

/-! ## Sequential entry iteration -/

/-- Lazy opening of a path-string dataset as performed by `next`. -/
def resolveDS : DS → DS
  | .path p => gdalOpen p
  | x => x

/-- The `(dataset, is_label, metadata)` triple of the `i`-th manifest entry,
with a path-string dataset opened. -/
def manifestEntry (m : SampleManifest) (i : Nat) : DS × Bool × Meta :=
  (resolveDS ((dsOf m).getD i (.handle 0)), m.labels.getD i false,
    m.metadata.getD i [])

/-- The Sample with its iteration cursor moved (the `self._i += 1` effect). -/
def setCursor (s : Sample) (n : Nat) : Sample := {s with icursor := n}

@[simp] theorem setCursor_data (s : Sample) (n : Nat) :
    (setCursor s n).data = s.data := rfl

@[simp] theorem setCursor_icursor (s : Sample) (n : Nat) :
    (setCursor s n).icursor = n := rfl

@[simp] theorem setCursor_setCursor (s : Sample) (m n : Nat) :
    setCursor (setCursor s m) n = setCursor s n := rfl

theorem next_ok (s : Sample) (hwf : s.data.wfb = true)
    (hj : s.icursor < s.data.num_datasets) :
    s.next = .ok (manifestEntry s.data s.icursor, setCursor s (s.icursor + 1)) := by
  obtain ⟨l, hl⟩ := Option.ne_none_iff_exists.mp (wfb_ne_none s.data hwf)
  obtain ⟨hld, hll, hlm⟩ := wfb_lengths s.data hwf
  have hil : s.icursor < l.length := by
    rw [show l.length = (dsOf s.data).length by simp [dsOf, ← hl]]
    omega
  have hib : s.icursor < s.data.labels.length := by omega
  have him : s.icursor < s.data.metadata.length := by omega
  simp only [Sample.next, hj, if_pos, ← hl, manifestEntry, dsOf, ← hl]
  simp only [List.getElem?_eq_getElem, hil, hib, him, Bind.bind, Except.bind,
    pure, Except.pure, List.getD_eq_getElem?_getD, Option.getD_some]
  cases hx : l.get ⟨s.icursor, hil⟩ with
  | handle i =>
    rw [show l[s.icursor] = l.get ⟨s.icursor, hil⟩ from rfl, hx]; rfl
  | path p =>
    rw [show l[s.icursor] = l.get ⟨s.icursor, hil⟩ from rfl, hx]; rfl
  | opened p =>
    rw [show l[s.icursor] = l.get ⟨s.icursor, hil⟩ from rfl, hx]; rfl

theorem next_stop (s : Sample) (hj : ¬ s.icursor < s.data.num_datasets) :
    s.next = .error .stopIteration := by
  unfold Sample.next
  rw [if_neg hj]
  rfl

theorem iterN_ok (s : Sample) (hwf : s.data.wfb = true) :
    ∀ (k j : Nat), s.icursor = j → j + k ≤ s.data.num_datasets →
    s.iterN k = .ok ((List.range' j k).map (manifestEntry s.data),
      setCursor s (j + k)) := by
  intro k
  induction k generalizing s with
  | zero =>
    intro j hj _
    simp only [Sample.iterN, List.range', List.map_nil, Nat.add_zero, pure,
      Except.pure, Except.ok.injEq, Prod.mk.injEq, true_and]
    simp [setCursor, ← hj]
  | succ k ih =>
    intro j hj hle
    have hlt : s.icursor < s.data.num_datasets := by omega
    have hnext := next_ok s hwf hlt
    show (s.next >>= _ : Except PyErr _) = _
    rw [hnext]
    rw [show ∀ (x : (DS × Bool × Meta) × Sample) f,
      (Except.ok x >>= f : Except PyErr (List (DS × Bool × Meta) × Sample)) = f x
      from fun _ _ => rfl]
    show (Sample.iterN _ k >>= _ : Except PyErr _) = _
    rw [ih (setCursor s (s.icursor + 1)) (by simpa using hwf) (j + 1)
      (by simp [hj]) (by simpa using by omega)]
    rw [show ∀ (x : List (DS × Bool × Meta) × Sample) f,
      (Except.ok x >>= f : Except PyErr (List (DS × Bool × Meta) × Sample)) = f x
      from fun _ _ => rfl]
    simp only [setCursor_data, setCursor_setCursor]
    rw [hj, List.range'_succ, List.map_cons,
      show j + 1 + k = j + (k + 1) by omega]
    rfl

/-- C6 helper: the `(n+1)`-fold iteration is the `n`-fold iteration followed
by one more `next` on the resulting state. -/
theorem iterN_succ_eq (s : Sample) (n : Nat) :
    s.iterN (n + 1) =
      s.iterN n >>= fun ts => ts.2.next >>= fun t => pure (ts.1 ++ [t.1], t.2) := by
  induction n generalizing s with
  | zero =>
    cases hnx : s.next with
    | error e =>
      simp [Sample.iterN, hnx, Bind.bind, Except.bind, pure, Except.pure]
    | ok x =>
      simp [Sample.iterN, hnx, Bind.bind, Except.bind, pure, Except.pure]
  | succ n ih =>
    rw [Sample.iterN.eq_2]
    conv_rhs => rw [Sample.iterN.eq_2]
    cases hnx : s.next with
    | error e => simp [hnx, Bind.bind, Except.bind]
    | ok x =>
      simp only [hnx, Bind.bind, Except.bind]
      rw [ih x.2]
      cases hr : x.2.iterN n with
      | error e => simp [Bind.bind, Except.bind, hr]
      | ok y =>
        cases hr2 : y.2.next with
        | error e => simp [Bind.bind, Except.bind, hr, hr2, pure, Except.pure]
        | ok z => simp [Bind.bind, Except.bind, hr, hr2, pure, Except.pure]

/-- C6: for a Sample over a well-formed manifest with `num_datasets = n` and
the cursor at 0, iterating exactly `n` times succeeds and returns the
`(dataset, is_label, metadata)` triple of each manifest entry in manifest
order (opening path-string datasets lazily), and the `(n+1)`-th iteration
raises `StopIteration` — the normal end-of-sequence signal, not an
`IndexError`-style failure. -/
theorem C6_iteration (s : Sample) (h0 : s.icursor = 0)
    (hwf : s.data.wfb = true) :
    s.iterN s.data.num_datasets =
      .ok ((List.range s.data.num_datasets).map (manifestEntry s.data),
        setCursor s s.data.num_datasets) ∧
    s.iterN (s.data.num_datasets + 1) = .error .stopIteration := by
  have hok := iterN_ok s hwf s.data.num_datasets 0 h0 (by omega)
  refine ⟨by rw [hok]; simp [List.range_eq_range'], ?_⟩
  rw [iterN_succ_eq, hok]
  rw [show ∀ (x : List (DS × Bool × Meta) × Sample) f,
    (Except.ok x >>= f : Except PyErr (List (DS × Bool × Meta) × Sample)) = f x
    from fun _ _ => rfl]
  show (Sample.next (setCursor s (0 + s.data.num_datasets)) >>= _ :
    Except PyErr _) = _
  rw [next_stop (setCursor s (0 + s.data.num_datasets)) (by simp)]
  rfl

/-- Witness for C6 at a concrete two-entry manifest with one path source. -/
theorem C6_iteration_witness :
    Sample.iterN ⟨⟨"u", some [DS.path "a", DS.handle 7], [false, true],
        [[("k", "v")], []], 2⟩, some [], some false, some false, some 224,
        some 224, some "uint16", some false, none, none, none, 0⟩ 2 =
      .ok ([(DS.opened "a", false, [("k", "v")]), (DS.handle 7, true, [])],
        ⟨⟨"u", some [DS.path "a", DS.handle 7], [false, true],
          [[("k", "v")], []], 2⟩, some [], some false, some false, some 224,
          some 224, some "uint16", some false, none, none, none, 2⟩) ∧
    Sample.iterN ⟨⟨"u", some [DS.path "a", DS.handle 7], [false, true],
        [[("k", "v")], []], 2⟩, some [], some false, some false, some 224,
        some 224, some "uint16", some false, none, none, none, 0⟩ 3 =
      .error .stopIteration := by
  have h := C6_iteration ⟨⟨"u", some [DS.path "a", DS.handle 7], [false, true],
    [[("k", "v")], []], 2⟩, some [], some false, some false, some 224,
    some 224, some "uint16", some false, none, none, none, 0⟩ rfl rfl
  exact ⟨by rw [h.1]; rfl, h.2⟩

/-! ## The shuffle/unshuffle round trip -/

/-- numpy gather `v[p]`: the shuffled prediction array. -/
def shuffleArr (v : List Rat) (p : List Nat) : List Rat :=
  p.map fun i => v.getD i 0

theorem foldl_set_length (ks : List Nat) (p : List Nat) :
    ∀ acc : List Nat,
    (ks.foldl (fun a k => a.set (p.getD k 0) k) acc).length = acc.length := by
  induction ks with
  | nil => intro acc; rfl
  | cons k0 tl ih =>
    intro acc
    rw [List.foldl_cons, ih, List.length_set]

theorem foldl_set_getD_untouched (ks : List Nat) (p : List Nat) (j : Nat) :
    ∀ acc : List Nat, (∀ k ∈ ks, p.getD k 0 ≠ j) →
    (ks.foldl (fun a k => a.set (p.getD k 0) k) acc).getD j 0 = acc.getD j 0 := by
  induction ks with
  | nil => intro acc _; rfl
  | cons k0 tl ih =>
    intro acc h
    rw [List.foldl_cons, ih _ (fun k hk => h k (List.mem_cons_of_mem _ hk))]
    have hne : p[k0]?.getD 0 ≠ j := by
      rw [← List.getD_eq_getElem?_getD]
      exact h k0 (List.mem_cons_self k0 tl)
    simp [List.getD_eq_getElem?_getD, List.getElem?_set, hne]

theorem foldl_set_getD_mem (p : List Nat)
    (hinj : ∀ k1 k2, k1 < p.length → k2 < p.length →
      p.getD k1 0 = p.getD k2 0 → k1 = k2) :
    ∀ (ks : List Nat), ks.Nodup → (∀ x ∈ ks, x < p.length) →
    ∀ (acc : List Nat) (k : Nat), k ∈ ks → p.getD k 0 < acc.length →
    (ks.foldl (fun a x => a.set (p.getD x 0) x) acc).getD (p.getD k 0) 0 = k := by
  intro ks
  induction ks with
  | nil => intro _ _ acc k hk; exact absurd hk (List.not_mem_nil k)
  | cons k0 tl ih =>
    intro hnd hlt acc k hk hbound
    rw [List.nodup_cons] at hnd
    rw [List.foldl_cons]
    rcases List.mem_cons.1 hk with rfl | hmem
    · rw [foldl_set_getD_untouched tl p (p.getD k 0) _ ?_]
      · have hb : p[k]?.getD 0 < acc.length := by
          rw [← List.getD_eq_getElem?_getD]
          exact hbound
        simp [List.getD_eq_getElem?_getD, List.getElem?_set, hb]
      · intro x hx he
        exact hnd.1 (hinj x k (hlt x (List.mem_cons_of_mem _ hx))
          (hlt k (List.mem_cons_self k tl)) he ▸ hx)
    · exact ih hnd.2 (fun x hx => hlt x (List.mem_cons_of_mem _ hx)) _ k hmem
        (by rw [List.length_set]; exact hbound)

theorem scatterInv_length (p : List Nat) : (scatterInv p).length = p.length := by
  rw [scatterInv, foldl_set_length, List.length_replicate]

theorem scatterInv_getD (p : List Nat) (hnd : p.Nodup)
    (helt : ∀ x ∈ p, x < p.length) (k : Nat) (hk : k < p.length) :
    (scatterInv p).getD (p.getD k 0) 0 = k := by
  have hinj : ∀ k1 k2, k1 < p.length → k2 < p.length →
      p.getD k1 0 = p.getD k2 0 → k1 = k2 := by
    intro k1 k2 h1 h2 he
    rw [List.getD_eq_getElem _ _ h1, List.getD_eq_getElem _ _ h2] at he
    exact hnd.getElem_inj_iff.1 he
  apply foldl_set_getD_mem p hinj (List.range p.length) (List.nodup_range _)
    (fun x hx => List.mem_range.1 hx) _ k (List.mem_range.2 hk)
  rw [List.length_replicate, List.getD_eq_getElem _ _ hk]
  exact helt _ (List.getElem_mem hk)

theorem foldl_set_mem_lt (p : List Nat) (m : Nat) :
    ∀ (ks acc : List Nat), (∀ x ∈ acc, x < m) → (∀ k ∈ ks, k < m) →
    ∀ x ∈ ks.foldl (fun a k => a.set (p.getD k 0) k) acc, x < m := by
  intro ks
  induction ks with
  | nil => intro acc ha _ x hx; exact ha x hx
  | cons k0 tl ih =>
    intro acc ha hk x hx
    rw [List.foldl_cons] at hx
    refine ih _ ?_ (fun k hk2 => hk k (List.mem_cons_of_mem _ hk2)) x hx
    intro y hy
    rcases List.mem_or_eq_of_mem_set hy with h | h
    · exact ha y h
    · rw [h]; exact hk k0 (List.mem_cons_self k0 tl)

theorem scatterInv_mem_lt (p : List Nat) : ∀ x ∈ scatterInv p, x < p.length := by
  intro x hx
  rcases Nat.eq_zero_or_pos p.length with h0 | hpos
  · rw [List.length_eq_zero] at h0
    subst h0
    simp [scatterInv] at hx
  · refine foldl_set_mem_lt p p.length (List.range p.length)
      (List.replicate p.length 0) ?_ (fun k hk => List.mem_range.1 hk) x hx
    intro y hy
    rw [List.eq_of_mem_replicate hy]
    exact hpos

/-- C3: `unshuffle` applied to the shuffled array `v[p]` and a permutation `p`
of `0..n-1` returns `v` elementwise, and it does so via the inverse
permutation `inv` with `inv[p[k]] = k` for all `k` (second conjunct). -/
theorem C3_unshuffle_roundtrip (s : Sample) (v : List Rat) (p : List Nat)
    (hp : p.Perm (List.range v.length)) :
    s.unshuffle (some (shuffleArr v p)) (some p) = .ok v ∧
    ∀ k, k < p.length → (scatterInv p).getD (p.getD k 0) 0 = k := by
  have hlen : p.length = v.length := by simpa using hp.length_eq
  have hnd : p.Nodup := hp.symm.nodup (List.nodup_range _)
  have helt : ∀ x ∈ p, x < p.length := fun x hx => by
    have := List.mem_range.1 (hp.mem_iff.1 hx)
    omega
  refine ⟨?_, fun k hk => scatterInv_getD p hnd helt k hk⟩
  have hall1 : p.all (fun x => decide (x < p.length)) = true :=
    List.all_eq_true.2 fun x hx => by simpa using helt x hx
  have hall2 : (scatterInv p).all
      (fun x => decide (x < (shuffleArr v p).length)) = true := by
    refine List.all_eq_true.2 fun x hx => ?_
    have := scatterInv_mem_lt p x hx
    simp only [shuffleArr, List.length_map, decide_eq_true_eq]
    omega
  show (Except.ok (shuffleArr v p) >>= _ : Except PyErr (List Rat)) = _
  rw [show ∀ (x : List Rat) (f : List Rat → Except PyErr (List Rat)),
    (Except.ok x >>= f) = f x from fun _ _ => rfl]
  show (if p.all (fun x => decide (x < p.length)) = true then _ else _ :
    Except PyErr (List Rat)) = _
  rw [if_pos hall1]
  show (if (scatterInv p).all (fun x => decide (x < (shuffleArr v p).length)) =
    true then _ else _ : Except PyErr (List Rat)) = _
  rw [if_pos hall2]
  show Except.ok ((scatterInv p).map fun i => (shuffleArr v p).getD i 0) =
    Except.ok v
  congr 1
  have hslen : (scatterInv p).length = v.length := by
    rw [scatterInv_length, hlen]
  apply List.ext_getElem?
  intro j
  by_cases hj : j < v.length
  · have hji : j < (scatterInv p).length := by omega
    have hjm : j < ((scatterInv p).map fun i => (shuffleArr v p).getD i 0).length := by
      rw [List.length_map]; omega
    rw [List.getElem?_eq_getElem hjm, List.getElem?_eq_getElem hj,
      List.getElem_map]
    have hjp : j ∈ p := hp.mem_iff.2 (List.mem_range.2 hj)
    obtain ⟨k, hkl, hpk⟩ := List.mem_iff_getElem.1 hjp
    have hk1 : (scatterInv p).getD j 0 = k := by
      rw [← hpk, ← List.getD_eq_getElem p 0 hkl]
      exact scatterInv_getD p hnd helt k hkl
    have hk2 : (scatterInv p)[j] = k := by
      rw [← List.getD_eq_getElem (scatterInv p) 0 hji]
      exact hk1
    rw [hk2]
    have hkm : k < (shuffleArr v p).length := by
      rw [shuffleArr, List.length_map]; omega
    rw [List.getD_eq_getElem _ _ hkm]
    show some ((List.map (fun i => v.getD i 0) p)[k]) = some v[j]
    rw [List.getElem_map, hpk, List.getD_eq_getElem v 0 hj]
  · have h1 : ((scatterInv p).map fun i => (shuffleArr v p).getD i 0).length ≤ j := by
      rw [List.length_map]; omega
    have h2 : v.length ≤ j := by omega
    rw [List.getElem?_eq_none h1, List.getElem?_eq_none h2]

/-- Witness for C3 at the permutation `[2, 0, 1]` of a three-element array. -/
theorem C3_unshuffle_roundtrip_witness :
    Sample.unshuffle ⟨⟨"u", some [DS.handle 1], [false], [[]], 1⟩, some [],
        some false, some false, some 224, some 224, some "uint16", some false,
        none, none, none, 0⟩ (some (shuffleArr [10, 20, 30] [2, 0, 1]))
        (some [2, 0, 1]) = .ok [10, 20, 30] :=
  (C3_unshuffle_roundtrip _ [10, 20, 30] [2, 0, 1] (by decide)).1

/-! ## Tiling configuration resolution, persistence and filtering -/

theorem resolveTileConfig_eq (s : Sample) (a : TileArgs) :
    resolveTileConfig s a =
      ({s with
          tile_y := a.tile_y.or s.tile_y
          tile_x := a.tile_x.or s.tile_x
          array_dtype := a.array_dtype.or s.array_dtype
          row_major := a.row_major.or s.row_major
          tile_coords := a.tile_coords.or s.tile_coords
          pos_only := a.pos_only.or s.pos_only
          non_null_only := a.non_null_only.or s.non_null_only},
       (a.tile_y.or s.tile_y, a.tile_x.or s.tile_x,
        a.array_dtype.or s.array_dtype, a.row_major.or s.row_major,
        a.tile_coords.or s.tile_coords, a.pos_only.or s.pos_only,
        a.non_null_only.or s.non_null_only)) := by
  obtain ⟨ty, tx, ad, rm, tc, po, nn, st, ar⟩ := a
  cases ty <;> cases tx <;> cases ad <;> cases rm <;> cases tc <;> cases po <;>
    cases nn <;> rfl

/-- C4 (amended): every explicitly passed scalar tiling parameter among
`tile_y`, `tile_x`, `array_dtype`, `row_major`, `pos_only`, `non_null_only` is
persisted onto the Sample as the new stored default and every omitted one
falls back to (and leaves) the stored value; `tile_coords` is resolved the
same way (explicit > stored) but its stored value is then overwritten with
the grid returned by the tiling collaborator; `shuffle_indices` and
`band_map` are likewise overwritten with the collaborator's return values;
the manifest, predictions and iteration cursor are unchanged. -/
theorem C4_tile_config_persistence (s : Sample) (a : TileArgs) (c : CollabOut) :
    (tileRun s a c).1.tile_y = a.tile_y.or s.tile_y ∧
    (tileRun s a c).1.tile_x = a.tile_x.or s.tile_x ∧
    (tileRun s a c).1.array_dtype = a.array_dtype.or s.array_dtype ∧
    (tileRun s a c).1.row_major = a.row_major.or s.row_major ∧
    (tileRun s a c).1.pos_only = a.pos_only.or s.pos_only ∧
    (tileRun s a c).1.non_null_only = a.non_null_only.or s.non_null_only ∧
    (resolveTileConfig s a).2.2.2.2.2.1 = a.tile_coords.or s.tile_coords ∧
    (tileRun s a c).1.tile_coords = c.tile_coords ∧
    (tileRun s a c).1.shuffle_indices = c.shuffle_indices ∧
    (tileRun s a c).1.band_map = some c.band_map ∧
    (tileRun s a c).1.preds = s.preds ∧
    (tileRun s a c).1.data = s.data ∧
    (tileRun s a c).1.icursor = s.icursor := by
  simp [tileRun, resolveTileConfig_eq]

/-- Counterexample for C4 as stated: with `tile_coords` passed explicitly as
`[(0, 0)]` but the collaborator returning the realized grid `[(1, 1)]`, the
value stored on the Sample after the pass is the collaborator's grid, not the
explicit argument; moreover the configuration field `shuffle_indices`, which
is not among the passed parameters, is overwritten (from `None` to `[0]`). -/
theorem C4_counterexample :
    (tileRun ⟨⟨"u", some [DS.handle 1], [false], [[]], 1⟩, some [], some false,
        some false, some 224, some 224, some "uint16", some false, none, none,
        none, 0⟩
      ⟨none, none, none, none, some [(0, 0)], none, none, false, false⟩
      ⟨none, [], some [(1, 1)], some [0], ⟨[], []⟩⟩).1.tile_coords =
        some [(1, 1)] ∧
    (tileRun ⟨⟨"u", some [DS.handle 1], [false], [[]], 1⟩, some [], some false,
        some false, some 224, some 224, some "uint16", some false, none, none,
        none, 0⟩
      ⟨none, none, none, none, some [(0, 0)], none, none, false, false⟩
      ⟨none, [], some [(1, 1)], some [0], ⟨[], []⟩⟩).1.shuffle_indices =
        some [0] ∧
    some [((1 : Nat), (1 : Nat))] ≠ some [((0 : Nat), (0 : Nat))] :=
  ⟨rfl, rfl, by decide⟩

/-- C10: `tile` and `shuffle` are generator functions — the call itself
returns the Sample unchanged together with a suspended generator (for
`shuffle`, with `shuffle_tiles` forced true), and the generator body
(resolution, collaborator invocation, persistence, filtering) runs only when
the returned sequence is pulled (`TileGen.run`), at which point it equals
`tileRun` on the state at pull time. -/
theorem C10_tile_call_lazy (s : Sample) (a : TileArgs) (c : CollabOut) :
    (s.tile a).1 = s ∧ (s.shuffle a).1 = s ∧
    (s.tile a).2.run s c = tileRun s a c ∧
    (s.shuffle a).2.args.shuffle_tiles = true :=
  ⟨rfl, rfl, rfl, rfl⟩

theorem tileLoopStep_ok_some (po nn : Bool) (bm : BandMap) (ta : TileArr)
    (t : LightPipeTile) (h : tileLoopStep po nn bm ta = .ok (some t)) :
    (po = true → allCloseZero t.y = false) ∧
    (nn = true → allCloseZero t.X = false) := by
  unfold tileLoopStep at h
  by_cases h1 : (bm.feat.all (fun i => decide (i < ta.length)) &&
      bm.lab.all (fun i => decide (i < ta.length))) = true
  case neg => rw [if_neg h1] at h; cases h
  rw [if_pos h1] at h
  by_cases h2 : (po && allCloseZero (selectBands ta bm.lab)) = true
  · rw [if_pos h2] at h; simp at h
  rw [if_neg h2] at h
  by_cases h3 : (nn && allCloseZero (selectBands ta bm.feat)) = true
  · rw [if_pos h3] at h; simp at h
  rw [if_neg h3] at h
  have ht : t = ⟨selectBands ta bm.feat, selectBands ta bm.lab, bm⟩ := by
    have := h
    simp only [Except.ok.injEq, Option.some.injEq] at this
    exact this.symm
  refine ⟨fun hpo => ?_, fun hnn => ?_⟩
  · rw [ht]
    show allCloseZero (selectBands ta bm.lab) = false
    rw [hpo, Bool.true_and] at h2
    simpa using h2
  · rw [ht]
    show allCloseZero (selectBands ta bm.feat) = false
    rw [hnn, Bool.true_and] at h3
    simpa using h3

theorem tileLoopStep_ok_isSome (bm : BandMap) (ta : TileArr)
    (r : Option LightPipeTile) (h : tileLoopStep false false bm ta = .ok r) :
    r.isSome = true := by
  unfold tileLoopStep at h
  by_cases h1 : (bm.feat.all (fun i => decide (i < ta.length)) &&
      bm.lab.all (fun i => decide (i < ta.length))) = true
  · rw [if_pos h1] at h
    simp only [Bool.false_and, Bool.false_eq_true, if_false] at h
    obtain rfl :
        some (⟨selectBands ta bm.feat, selectBands ta bm.lab, bm⟩ :
          LightPipeTile) = r := by
      simpa using h
    rfl
  · rw [if_neg h1] at h; cases h

theorem tileSteps_filter (po nn : Bool) (bm : BandMap) :
    ∀ (tas : List TileArr) (res : List (Option LightPipeTile)),
    tas.mapM (tileLoopStep po nn bm) = .ok res →
    (∀ t ∈ res.filterMap id,
      (po = true → allCloseZero t.y = false) ∧
      (nn = true → allCloseZero t.X = false)) ∧
    (po = false → nn = false → (res.filterMap id).length = tas.length) := by
  intro tas
  induction tas with
  | nil =>
    intro res h
    rw [List.mapM_nil] at h
    have h2 : Except.ok ([] : List (Option LightPipeTile)) = Except.ok res := h
    obtain rfl : ([] : List (Option LightPipeTile)) = res := by simpa using h2
    exact ⟨fun t ht => absurd ht (by simp), fun _ _ => rfl⟩
  | cons ta tas ih =>
    intro res h
    rw [List.mapM_cons] at h
    cases hstep : tileLoopStep po nn bm ta with
    | error e => rw [hstep] at h; simp [Bind.bind, Except.bind] at h
    | ok b =>
      rw [hstep] at h
      cases hrest : tas.mapM (tileLoopStep po nn bm) with
      | error e => rw [hrest] at h; simp [Bind.bind, Except.bind] at h
      | ok bs =>
        rw [hrest] at h
        simp only [Bind.bind, Except.bind, pure, Except.pure,
          Except.ok.injEq] at h
        obtain rfl := h
        obtain ⟨iha, ihc⟩ := ih bs hrest
        constructor
        · intro t ht
          cases b with
          | none =>
            rw [List.filterMap_cons] at ht
            exact iha t ht
          | some tb =>
            rw [List.filterMap_cons] at ht
            rcases List.mem_cons.1 ht with rfl | hmem
            · exact tileLoopStep_ok_some po nn bm ta t hstep
            · exact iha t hmem
        · intro hpo hnn
          subst hpo
          subst hnn
          have hb := tileLoopStep_ok_isSome bm ta b hstep
          cases b with
          | none => simp at hb
          | some tb =>
            rw [List.filterMap_cons]
            show (tb :: bs.filterMap id).length = tas.length + 1
            simp [ihc rfl rfl]

/-- C7: in a tile pass, with `pos_only` resolved true no yielded Tile has an
all-close-to-zero `y`; with `non_null_only` resolved true no yielded Tile has
an all-close-to-zero `X`; with both resolved false the yielded-tile count
equals the raw tile count from the tiling collaborator; and the persisted
`shuffle_indices` is the collaborator's permutation over the pre-filter tile
sequence, unchanged by filtering. -/
theorem C7_tile_filtering (s : Sample) (a : TileArgs) (c : CollabOut)
    (out : List LightPipeTile) (hout : (tileRun s a c).2 = .ok out) :
    (truthy (a.pos_only.or s.pos_only) = true →
      ∀ t ∈ out, allCloseZero t.y = false) ∧
    (truthy (a.non_null_only.or s.non_null_only) = true →
      ∀ t ∈ out, allCloseZero t.X = false) ∧
    (truthy (a.pos_only.or s.pos_only) = false →
      truthy (a.non_null_only.or s.non_null_only) = false →
      out.length = c.tiles.length) ∧
    (tileRun s a c).1.shuffle_indices = c.shuffle_indices := by
  have h2 : (tileRun s a c).2 =
      (c.tiles.mapM (tileLoopStep (truthy (a.pos_only.or s.pos_only))
        (truthy (a.non_null_only.or s.non_null_only)) c.band_map)).map
        (fun r => r.filterMap id) := by
    simp [tileRun, resolveTileConfig_eq]
  rw [h2] at hout
  cases hm : c.tiles.mapM (tileLoopStep (truthy (a.pos_only.or s.pos_only))
      (truthy (a.non_null_only.or s.non_null_only)) c.band_map) with
  | error e => rw [hm] at hout; simp [Except.map] at hout
  | ok res =>
    rw [hm] at hout
    simp only [Except.map, Except.ok.injEq] at hout
    obtain ⟨iha, ihc⟩ := tileSteps_filter (truthy (a.pos_only.or s.pos_only))
      (truthy (a.non_null_only.or s.non_null_only)) c.band_map c.tiles res hm
    subst hout
    exact ⟨fun hpo t ht => (iha t ht).1 hpo, fun hnn t ht => (iha t ht).2 hnn,
      fun hpo hnn => ihc hpo hnn, by simp [tileRun, resolveTileConfig_eq]⟩

/-- Witness for C7: with both filters off, two raw tiles yield two Tiles and
the collaborator's permutation is persisted verbatim; with `pos_only` on, the
surviving Tile's `y` is not all-zero. -/
theorem C7_tile_filtering_witness :
    ([⟨[[0]], [[1]], ⟨[0], [1]⟩⟩, ⟨[[2]], [[0]], ⟨[0], [1]⟩⟩] :
      List LightPipeTile).length = ([[[0], [1]], [[2], [0]]] : List TileArr).length ∧
    (tileRun ⟨⟨"u", some [DS.handle 1], [false], [[]], 1⟩, some [], some false,
        some false, some 224, some 224, some "uint16", some false, none, none,
        none, 0⟩ TileArgs.default
      ⟨none, [[[0], [1]], [[2], [0]]], some [(0, 0), (0, 1)], some [1, 0],
        ⟨[0], [1]⟩⟩).1.shuffle_indices = some [1, 0] ∧
    allCloseZero (⟨[[0]], [[1]], ⟨[0], [1]⟩⟩ : LightPipeTile).y = false := by
  refine ⟨?_, ?_, ?_⟩
  · exact (C7_tile_filtering ⟨⟨"u", some [DS.handle 1], [false], [[]], 1⟩,
      some [], some false, some false, some 224, some 224, some "uint16",
      some false, none, none, none, 0⟩ TileArgs.default
      ⟨none, [[[0], [1]], [[2], [0]]], some [(0, 0), (0, 1)], some [1, 0],
        ⟨[0], [1]⟩⟩
      [⟨[[0]], [[1]], ⟨[0], [1]⟩⟩, ⟨[[2]], [[0]], ⟨[0], [1]⟩⟩] rfl).2.2.1
      rfl rfl
  · exact (C7_tile_filtering ⟨⟨"u", some [DS.handle 1], [false], [[]], 1⟩,
      some [], some false, some false, some 224, some 224, some "uint16",
      some false, none, none, none, 0⟩ TileArgs.default
      ⟨none, [[[0], [1]], [[2], [0]]], some [(0, 0), (0, 1)], some [1, 0],
        ⟨[0], [1]⟩⟩
      [⟨[[0]], [[1]], ⟨[0], [1]⟩⟩, ⟨[[2]], [[0]], ⟨[0], [1]⟩⟩] rfl).2.2.2
  · exact (C7_tile_filtering ⟨⟨"u", some [DS.handle 1], [false], [[]], 1⟩,
      some [], some false, some false, some 224, some 224, some "uint16",
      some false, none, none, none, 0⟩
      ⟨none, none, none, none, none, some true, none, false, false⟩
      ⟨none, [[[0], [1]], [[2], [0]]], some [(0, 0), (0, 1)], some [1, 0],
        ⟨[0], [1]⟩⟩
      [⟨[[0]], [[1]], ⟨[0], [1]⟩⟩] rfl).1 rfl
      ⟨[[0]], [[1]], ⟨[0], [1]⟩⟩ (by simp)

/-! ## Save dispatch by file extension -/

theorem suffix_eq_of_length (l1 l2 p : List Char) (h1 : l1 <:+ p)
    (h2 : l2 <:+ p) (hl : l1.length = l2.length) : l1 = l2 := by
  obtain ⟨t1, ht1⟩ := h1
  obtain ⟨t2, ht2⟩ := h2
  have ht : t1 ++ l1 = t2 ++ l2 := ht1.trans ht2.symm
  have hlen : t1.length = t2.length := by
    have := congrArg List.length ht
    rw [List.length_append, List.length_append] at this
    omega
  exact List.append_inj_right ht hlen

theorem csv_not_tif (p : List Char) (h : fileIsA p ".csv".toList = true) :
    fileIsA p ".tif".toList = false := by
  rw [fileIsA, List.isSuffixOf_iff_suffix] at h
  rw [fileIsA]
  by_contra hc
  rw [Bool.not_eq_false, List.isSuffixOf_iff_suffix] at hc
  have := suffix_eq_of_length ".csv".toList ".tif".toList p h hc (by decide)
  exact absurd this (by decide)

/-- C8: `save` resolves the predictions and dispatches on the extension of
`savepath`: a path ending in `.tif` takes the raster-writer path, handing it
the raw predictions when the Sample holds no shuffle indices and the result
of `unshuffle` when it does; a path ending in `.csv` fails with
`NotImplementedError` (the tabular writer is unimplemented); and a path with
any other extension fails with `NotImplementedError`. -/
theorem C8_save_dispatch (s : Sample) (path : List Char) (v : List Rat) :
    (fileIsA path ".tif".toList = true → s.shuffle_indices = none →
      s.save path (some v) = .ok v) ∧
    (fileIsA path ".tif".toList = true → ∀ idx,
      s.shuffle_indices = some idx →
      s.save path (some v) = s.unshuffle (some v) none) ∧
    (fileIsA path ".csv".toList = true →
      s.save path (some v) = .error .notImplementedError) ∧
    (fileIsA path ".tif".toList = false → fileIsA path ".csv".toList = false →
      s.save path (some v) = .error .notImplementedError) := by
  refine ⟨fun htif hsi => ?_, fun htif idx hsi => ?_, fun hcsv => ?_,
    fun htif hcsv => ?_⟩
  · have h1 : fileIsA path (['.', 't', 'i', 'f'] : List Char) = true := htif
    simp [Sample.save, h1, Sample.savePredsAsGeotiff, hsi, Bind.bind,
      Except.bind, pure, Except.pure]
  · have h1 : fileIsA path (['.', 't', 'i', 'f'] : List Char) = true := htif
    simp [Sample.save, h1, Sample.savePredsAsGeotiff, hsi, Bind.bind,
      Except.bind, pure, Except.pure]
  · have h1 : fileIsA path (['.', 't', 'i', 'f'] : List Char) = false :=
      csv_not_tif path hcsv
    have h2 : fileIsA path (['.', 'c', 's', 'v'] : List Char) = true := hcsv
    simp [Sample.save, h1, h2, Bind.bind, Except.bind, pure, Except.pure]
    rfl
  · have h1 : fileIsA path (['.', 't', 'i', 'f'] : List Char) = false := htif
    have h2 : fileIsA path (['.', 'c', 's', 'v'] : List Char) = false := hcsv
    simp [Sample.save, h1, h2, Bind.bind, Except.bind, pure, Except.pure]
    rfl

/-- Witness for C8 at concrete paths `out.tif`, `out.csv` and `out.xyz` on a
Sample holding the shuffle permutation `[1, 0]`. -/
theorem C8_save_dispatch_witness :
    Sample.save ⟨⟨"u", some [DS.handle 1], [false], [[]], 1⟩, some [],
        some false, some false, some 224, some 224, some "uint16", some false,
        none, some [1, 0], none, 0⟩ "out.tif".toList (some [5, 6]) =
      .ok [6, 5] ∧
    Sample.save ⟨⟨"u", some [DS.handle 1], [false], [[]], 1⟩, some [],
        some false, some false, some 224, some 224, some "uint16", some false,
        none, some [1, 0], none, 0⟩ "out.csv".toList (some [5, 6]) =
      .error .notImplementedError ∧
    Sample.save ⟨⟨"u", some [DS.handle 1], [false], [[]], 1⟩, some [],
        some false, some false, some 224, some 224, some "uint16", some false,
        none, some [1, 0], none, 0⟩ "out.xyz".toList (some [5, 6]) =
      .error .notImplementedError := by
  refine ⟨?_, ?_, ?_⟩
  · exact ((C8_save_dispatch ⟨⟨"u", some [DS.handle 1], [false], [[]], 1⟩,
      some [], some false, some false, some 224, some 224, some "uint16",
      some false, none, some [1, 0], none, 0⟩ "out.tif".toList [5, 6]).2.1
      (by rfl) [1, 0] rfl).trans (by rfl)
  · exact (C8_save_dispatch ⟨⟨"u", some [DS.handle 1], [false], [[]], 1⟩,
      some [], some false, some false, some 224, some 224, some "uint16",
      some false, none, some [1, 0], none, 0⟩ "out.csv".toList [5, 6]).2.2.1
      (by rfl)
  · exact (C8_save_dispatch ⟨⟨"u", some [DS.handle 1], [false], [[]], 1⟩,
      some [], some false, some false, some 224, some 224, some "uint16",
      some false, none, some [1, 0], none, 0⟩ "out.xyz".toList [5, 6]).2.2.2
      (by rfl) (by rfl)

end Yankee
